import Mathlib

/-!
Verification development for the BubbleAi autonomous chat turn pipeline.

The embedding models, from the TypeScript source:
  - the streaming loop of `runAutonomousAgent` (fragment feeding, sentinel
    detection on the cumulative buffer, visible-delta emission);
  - finalization (metadata-block extraction by regex, JSON-parse fallback);
  - the action dispatch (code / image / plain-text priority, the credit
    gate, deduction and image generation ordering);
  - the `try/catch` error envelope of `runAutonomousAgent`;
  - the guard and effect structure of `handleSendMessage` in `useChat`.

Strings are modelled as `List Char`.  External collaborators (the model
stream, Supabase fetches, JSON.parse, the image backend) are modelled as
environment parameters with `Except`-typed results, matching the spec's
collaborator interfaces.
-/

namespace BubbleAi

/-- Character-level whitespace test used by the model of JS `String.trim`. -/
def isWs (c : Char) : Bool := c.isWhitespace

/-- Model of JS `String.prototype.trim`: drop whitespace from both ends. -/
def jsTrim (s : List Char) : List Char :=
  ((s.dropWhile isWs).reverse.dropWhile isWs).reverse

/-- Model of JS `String.prototype.indexOf` for a pattern: index of the first
occurrence of `pat` as a contiguous sublist, `none` when absent. -/
def indexOfSub (pat : List Char) : List Char → Option Nat
  | [] => if pat.isEmpty then some 0 else none
  | c :: rest =>
    if pat.isPrefixOf (c :: rest) then some 0
    else (indexOfSub pat rest).map (· + 1)

/-- The sentinel token `'[--METADATA--]'` from `runAutonomousAgent`. -/
def sentinel : List Char := "[--METADATA--]".data

/-- State of the streaming loop: `fullText` accumulates every chunk,
`streamingBuffer` tracks the text already sent to the UI
(source: `runAutonomousAgent`, the `for await` loop). -/
structure StreamState where
  fullText : List Char
  streamingBuffer : List Char
deriving DecidableEq, Repr

/-- The initial stream state: both buffers empty. -/
def initStream : StreamState := { fullText := [], streamingBuffer := [] }

/-- One iteration of the streaming loop on a chunk.  Returns the updated
state and the list (zero or one) of visible deltas passed to
`onStreamChunk`.  Mirrors the source exactly: an empty (falsy) chunk is
skipped; otherwise the chunk is appended to `fullText`; if the sentinel
occurs in the cumulative buffer the visible prefix before it is clamped
and only the unsent part is emitted; otherwise the WHOLE chunk is emitted. -/
def feedChunk (s : StreamState) (chunk : List Char) :
    StreamState × List (List Char) :=
  if chunk = [] then (s, [])
  else
    let full := s.fullText ++ chunk
    match indexOfSub sentinel full with
    | some i =>
      let visible := full.take i
      if s.streamingBuffer.length < visible.length then
        ({ fullText := full, streamingBuffer := visible },
         [visible.drop s.streamingBuffer.length])
      else
        ({ fullText := full, streamingBuffer := s.streamingBuffer }, [])
    | none =>
      ({ fullText := full, streamingBuffer := s.streamingBuffer ++ chunk },
       [chunk])

/-- Run the streaming loop over a list of chunks from a given state,
collecting all emitted visible deltas in order. -/
def runStreamAux (s : StreamState) : List (List Char) →
    StreamState × List (List Char)
  | [] => (s, [])
  | c :: cs =>
    let (s1, d1) := feedChunk s c
    let (s2, d2) := runStreamAux s1 cs
    (s2, d1 ++ d2)

/-- Run the streaming loop from the initial state. -/
def runStream (chunks : List (List Char)) : StreamState × List (List Char) :=
  runStreamAux initStream chunks

/-- Concatenation of all visible deltas passed to `onStreamChunk` when the
stream delivers `chunks` in order. -/
def emittedText (chunks : List (List Char)) : List Char :=
  (runStream chunks).2.flatten

/-- The `fullText` accumulated by `feedChunk` is always the old `fullText`
with the chunk appended. -/
theorem feedChunk_fullText (s : StreamState) (c : List Char) :
    (feedChunk s c).1.fullText = s.fullText ++ c := by
  unfold feedChunk
  split
  · next hc => simp [hc]
  · simp only []
    split
    · split <;> rfl
    · rfl

/-- After running the whole stream, `fullText` is the join of all chunks. -/
theorem runStreamAux_fullText (cs : List (List Char)) :
    ∀ s : StreamState, (runStreamAux s cs).1.fullText = s.fullText ++ cs.flatten := by
  induction cs with
  | nil => intro s; simp [runStreamAux]
  | cons c cs ih =>
    intro s
    simp only [runStreamAux, List.flatten_cons]
    have h1 := feedChunk_fullText s c
    have h2 := ih (feedChunk s c).1
    simp only [h2, h1, List.append_assoc]

theorem runStream_fullText (cs : List (List Char)) :
    (runStream cs).1.fullText = cs.flatten := by
  simpa [runStream, initStream] using runStreamAux_fullText cs initStream

/-! ### Finalization: metadata extraction and parse fallback -/

/-- One memory item of the `memoryToCreate` array in the metadata block. -/
structure MemoryItem where
  layer : List Char
  key : List Char
  value : List Char
deriving DecidableEq, Repr

/-- The parsed metadata record of `runAutonomousAgent`; every field starts
out `null` and is overwritten by a successful JSON parse (the object-spread
`{ ...defaults, ...JSON.parse(...) }`). -/
structure ParsedMetadata where
  imagePrompt : Option (List Char) := none
  code : Option (List Char) := none
  language : Option (List Char) := none
  memoryToCreate : Option (List MemoryItem) := none
deriving DecidableEq, Repr

/-- The all-`null` default metadata. -/
def defaultMetadata : ParsedMetadata := {}

/-- Model of the regex `\[--METADATA--\]([\s\S]*?)\[--METADATA--\]` applied
to the full text: when two sentinel occurrences exist, returns the inner
text between them (the lazy group) and the text with the whole match
removed (`fullText.replace(metadataRegex, '')`); otherwise `none`. -/
def extractMeta (text : List Char) : Option (List Char × List Char) :=
  match indexOfSub sentinel text with
  | none => none
  | some i =>
    let afterFirst := text.drop (i + sentinel.length)
    match indexOfSub sentinel afterFirst with
    | none => none
    | some j =>
      some (afterFirst.take j,
            text.take i ++ afterFirst.drop (j + sentinel.length))

/-- Finalization of the full response (post-stream part of
`runAutonomousAgent`): computes the user-visible text and the parsed
metadata.  `parseMeta` models `JSON.parse` composed with the object
spread; `none` models a parse exception, answered by keeping the defaults.
The source guards the parse with `metadataMatch && metadataMatch[1]`, so an
empty inner block is never parsed. -/
def finalizeResponse (parseMeta : List Char → Option ParsedMetadata)
    (fullText : List Char) : List Char × ParsedMetadata :=
  match extractMeta fullText with
  | none => (jsTrim fullText, defaultMetadata)
  | some (inner, stripped) =>
    let visible := jsTrim stripped
    if inner = [] then (visible, defaultMetadata)
    else
      match parseMeta (jsTrim inner) with
      | some m => (visible, m)
      | none => (visible, defaultMetadata)

/-! ### Messages, profiles, events and the agent environment -/

/-- Message sender role. -/
inductive Sender
  | user
  | ai
deriving DecidableEq, Repr

/-- Image status carried on a message (`'generating' | 'complete'`). -/
inductive ImageStatus
  | generating
  | complete
deriving DecidableEq, Repr

/-- An outbound/persisted message draft (the fields of `AgentOutput[0]` /
`Message` used by the turn pipeline). -/
structure Msg where
  project_id : List Char
  chat_id : List Char
  sender : Sender
  text : List Char
  code : Option (List Char) := none
  language : Option (List Char) := none
  image_base64 : Option (List Char) := none
  imageStatus : Option ImageStatus := none
  raw_ai_response : Option (List Char) := none
deriving DecidableEq, Repr

/-- The re-fetched profile row (`latestProfile`). -/
structure Profile where
  membershipAdmin : Bool
  preferred_image_model : Option (List Char)
  credits : Int
deriving DecidableEq, Repr

/-- The `app_settings` row: per-model image cost lookup
(`settings['cost_image_' + model]`); `none` models a missing column. -/
structure AppSettings where
  costOf : List Char → Option Int

/-- Result of `generateImage` from the image service. -/
structure GenOut where
  imageBase64 : List Char
  fallbackOccurred : Bool
deriving DecidableEq, Repr

/-- Errors that can be thrown inside the agent's `try` block.  `thrown tag`
stands for an arbitrary collaborator exception (stream, fetch, generation). -/
inductive TurnErr
  | emptyResponse
  | thrown (tag : Nat)
deriving DecidableEq, Repr

/-- Observable collaborator calls issued by the agent, in program order. -/
inductive AgentEvent
  | uiImageStart (text : List Char)
  | fetchProfile
  | fetchSettings
  | deductCredits (userId : List Char) (amount : Int)
  | generateImage (prompt : List Char) (model : List Char)
  | saveMemory (userId : List Char) (layer : List Char) (key : List Char)
      (value : List Char)
deriving DecidableEq, Repr

/-- Static per-call context of `runAutonomousAgent` (destructured `input`).
`roleAdmin` models `input.profile?.role === 'admin'`; `friendlyError`
models the external `getUserFriendlyError`. -/
structure AgentCtx where
  project_id : List Char
  chat_id : List Char
  user_id : List Char
  roleAdmin : Bool
  friendlyError : TurnErr → List Char

/-- Environment: outcomes of the external collaborators consumed during one
agent run.  An `Except.error` models the collaborator throwing/rejecting. -/
structure AgentEnv where
  streamResult : Except TurnErr (List (List Char))
  parseMeta : List Char → Option ParsedMetadata
  profileFetch : Except TurnErr Profile
  settingsFetch : Except TurnErr AppSettings
  genResult : List Char → List Char → Except TurnErr GenOut

/-! ### The action dispatch (post-finalize part of `runAutonomousAgent`) -/

/-- JS truthiness-and-trim guard `x && typeof x === 'string' && x.trim()`. -/
def truthyTrim : Option (List Char) → Bool
  | some s => !(jsTrim s).isEmpty
  | none => false

/-- Does the payload carry a non-empty code body? -/
def hasCode (meta : ParsedMetadata) : Bool := truthyTrim meta.code

/-- Does the payload carry a non-empty image prompt? -/
def hasImage (meta : ParsedMetadata) : Bool := truthyTrim meta.imagePrompt

/-- JS `v || d` for string-valued options (empty string is falsy). -/
def orDefaultName (v : Option (List Char)) (d : List Char) : List Char :=
  match v with
  | some s => if s = [] then d else s
  | none => d

/-- The default image model name (`'nano_banana'`). -/
def nanoBanana : List Char := "nano_banana".data

/-- The default language tag (`'plaintext'`). -/
def plaintextLang : List Char := "plaintext".data

/-- JS `settings[...] || 1`: a missing or zero cost defaults to 1. -/
def effCost : Option Int → Int
  | some c => if c = 0 then 1 else c
  | none => 1

/-- Decimal digits of a natural number (fuel-based so it reduces). -/
def natToStrAux : Nat → Nat → List Char
  | 0, _ => []
  | fuel + 1, n =>
    if n < 10 then [Char.ofNat (48 + n)]
    else natToStrAux fuel (n / 10) ++ [Char.ofNat (48 + n % 10)]

/-- Decimal rendering of a natural number. -/
def natToStr (n : Nat) : List Char := natToStrAux (n + 1) n

/-- Decimal rendering of an integer (JS template-literal `${n}`). -/
def intToStr : Int → List Char
  | Int.ofNat n => natToStr n
  | Int.negSucc n => '-' :: natToStr (n + 1)

/-- The credit-shortfall notice text of `runAutonomousAgent`. -/
def shortfallText (cost credits : Int) : List Char :=
  "Oops! You need ".data ++ intToStr cost
    ++ " credits to generate an image, but you only have ".data
    ++ intToStr credits ++ ".".data

/-- The fallback-disclosure note appended when the premium model failed. -/
def fallbackNote : List Char :=
  "\n\n*(Note: The premium image model failed, so I used a faster fallback to generate this image.)*".data

/-- Attach the raw model output to a draft when the requester is an admin
(`if (input.profile?.role === 'admin') messagePayload.raw_ai_response = fullText`). -/
def attachRaw (ctx : AgentCtx) (fullText : List Char) (m : Msg) : Msg :=
  if ctx.roleAdmin then { m with raw_ai_response := some fullText } else m

/-- The shortfall-notice message returned when the balance is short. -/
def shortfallMsg (ctx : AgentCtx) (cost credits : Int) : Msg :=
  { project_id := ctx.project_id, chat_id := ctx.chat_id, sender := Sender.ai,
    text := shortfallText cost credits }

/-- The Case-1 draft: visible text + trimmed code + language tag. -/
def codeMsg (ctx : AgentCtx) (visible : List Char) (meta : ParsedMetadata) : Msg :=
  { project_id := ctx.project_id, chat_id := ctx.chat_id, sender := Sender.ai,
    text := visible, code := some (jsTrim (meta.code.getD [])),
    language := some (orDefaultName meta.language plaintextLang) }

/-- The Case-2 draft: visible text (plus the fallback note when the premium
model failed) + image payload + completed status. -/
def imageMsg (ctx : AgentCtx) (visible : List Char) (g : GenOut) : Msg :=
  { project_id := ctx.project_id, chat_id := ctx.chat_id, sender := Sender.ai,
    text := if g.fallbackOccurred then visible ++ fallbackNote else visible,
    image_base64 := some g.imageBase64, imageStatus := some ImageStatus.complete }

/-- The Case-3 draft: plain visible text. -/
def plainMsg (ctx : AgentCtx) (visible : List Char) : Msg :=
  { project_id := ctx.project_id, chat_id := ctx.chat_id, sender := Sender.ai,
    text := visible }

/-- Fire-and-forget memory persistence calls for a non-empty
`memoryToCreate` array. -/
def memoryEvents (ctx : AgentCtx) (meta : ParsedMetadata) : List AgentEvent :=
  match meta.memoryToCreate with
  | some l =>
    if l.isEmpty then []
    else l.map (fun m => .saveMemory ctx.user_id m.layer m.key m.value)
  | none => []

/-- The generation step shared by the admin and the paid path: record the
`generateImage` call, then either propagate its failure or build the image
message (with the fallback note when `fallbackOccurred`). -/
def runGeneration (ctx : AgentCtx) (env : AgentEnv)
    (fullText visible prompt model : List Char) (evs : List AgentEvent) :
    List AgentEvent × Except TurnErr (List Msg) :=
  let evs1 := evs ++ [.generateImage prompt model]
  match env.genResult prompt model with
  | .error e => (evs1, .error e)
  | .ok g => (evs1, .ok [attachRaw ctx fullText (imageMsg ctx visible g)])

/-- The final-response construction of `runAutonomousAgent` (memory saves,
then the Case 1 code / Case 2 image / Case 3 plain-text priority, else the
empty-response throw), with its collaborator-call trace. -/
def agentDispatch (ctx : AgentCtx) (env : AgentEnv)
    (fullText visible : List Char) (meta : ParsedMetadata) :
    List AgentEvent × Except TurnErr (List Msg) :=
  let memEvs := memoryEvents ctx meta
  if hasCode meta then
    (memEvs, .ok [attachRaw ctx fullText (codeMsg ctx visible meta)])
  else if hasImage meta then
    let prompt := meta.imagePrompt.getD []
    let evs0 := memEvs ++ [.uiImageStart visible, .fetchProfile]
    match env.profileFetch with
    | .error e => (evs0, .error e)
    | .ok prof =>
      let model := orDefaultName prof.preferred_image_model nanoBanana
      if prof.membershipAdmin then
        runGeneration ctx env fullText visible prompt model evs0
      else
        let evs1 := evs0 ++ [.fetchSettings]
        match env.settingsFetch with
        | .error e => (evs1, .error e)
        | .ok settings =>
          let cost := effCost (settings.costOf model)
          if prof.credits < cost then
            (evs1, .ok [shortfallMsg ctx cost prof.credits])
          else
            runGeneration ctx env fullText visible prompt model
              (evs1 ++ [.deductCredits ctx.user_id cost])
  else if visible ≠ [] then
    (memEvs, .ok [attachRaw ctx fullText (plainMsg ctx visible)])
  else
    (memEvs, .error .emptyResponse)

/-- The body of `runAutonomousAgent`'s `try` block: stream, finalize,
dispatch. -/
def agentBody (ctx : AgentCtx) (env : AgentEnv) :
    List AgentEvent × Except TurnErr (List Msg) :=
  match env.streamResult with
  | .error e => ([], .error e)
  | .ok chunks =>
    let st := (runStream chunks).1
    let r := finalizeResponse env.parseMeta st.fullText
    agentDispatch ctx env st.fullText r.1 r.2

/-- Text of the catch-all fallback message. -/
def errNoticeText (ctx : AgentCtx) (e : TurnErr) : List Char :=
  "An error occurred: ".data ++ ctx.friendlyError e

/-- The catch-all fallback message of `runAutonomousAgent`. -/
def errorMsg (ctx : AgentCtx) (e : TurnErr) : Msg :=
  { project_id := ctx.project_id, chat_id := ctx.chat_id, sender := Sender.ai,
    text := errNoticeText ctx e }

/-- `runAutonomousAgent`: the `try` body wrapped in the `catch` that turns
any thrown error into a single fallback AI message.  The model is a total
function: the source function never rejects. -/
def runAutonomousAgentModel (ctx : AgentCtx) (env : AgentEnv) :
    List AgentEvent × List Msg :=
  match agentBody ctx env with
  | (evs, .ok msgs) => (evs, msgs)
  | (evs, .error e) => (evs, [errorMsg ctx e])

/-! ### The turn orchestrator: `handleSendMessage` of `useChat` -/

/-- View identity of a message: the two temporary placeholder ids of a turn
or a persisted backend id. -/
inductive MsgId
  | tempUser
  | tempAi
  | persisted (n : Nat)
deriving DecidableEq, Repr

/-- The conversation view state touched by `handleSendMessage`:
the `messages` list and the `isLoading` flag. -/
structure View where
  messages : List (MsgId × Msg)
  isLoading : Bool
deriving DecidableEq, Repr

/-- The active chat row (`chatToUse`): its id and project id. -/
structure ChatInfo where
  chat_id : List Char
  project_id : List Char
deriving DecidableEq, Repr

/-- Call context of `handleSendMessage`: the submitted text, the number of
attached files, and presence of the `supabase`/`user`/chat/API-key
dependencies tested by the guard. -/
structure SendCtx where
  text : List Char
  filesCount : Nat
  hasSupabase : Bool
  hasUser : Bool
  chat : Option ChatInfo
  hasApiKey : Bool

/-- Environment of one `handleSendMessage` run: outcomes of file decoding,
user-message persistence, the agent call (total, per the agent model), and
per-draft AI-message persistence. -/
structure SendEnv where
  fileReads : Except Unit (List (List Char))
  addUserMessage : Except Unit Msg
  agent : List AgentEvent × List Msg
  addAiMessage : Msg → Except Unit Msg

/-- The aggregate observable outcome of one `handleSendMessage` call. -/
structure SendOutcome where
  view : View
  result : List Msg
  toasts : Nat
  catchRan : Bool
  persistCalls : Nat
deriving Repr

/-- The early-return guard of `handleSendMessage`:
`(!text.trim() && (!files || files.length === 0)) || !supabase || !user || !chatToUse || !geminiApiKey`. -/
def sendGuardFails (ctx : SendCtx) : Bool :=
  ((jsTrim ctx.text).isEmpty && ctx.filesCount == 0)
    || !ctx.hasSupabase || !ctx.hasUser || ctx.chat.isNone || !ctx.hasApiKey

/-- Sequential persistence of the AI drafts, counting attempted calls and
stopping at the first failure. -/
def persistAiList (f : Msg → Except Unit Msg) :
    List Msg → Nat × Except Unit (List Msg)
  | [] => (0, .ok [])
  | m :: rest =>
    match f m with
    | .error _ => (1, .error ())
    | .ok m2 =>
      let r := persistAiList f rest
      (r.1 + 1, r.2.map (fun l => m2 :: l))

/-- The catch-path cleanup: remove both temporary placeholder ids. -/
def removeTemps (msgs : List (MsgId × Msg)) : List (MsgId × Msg) :=
  msgs.filter (fun p => p.1 != MsgId.tempUser && p.1 != MsgId.tempAi)

/-- Model of `handleSendMessage`: guard, file decoding, optimistic
placeholder injection, user-message persistence with identity substitution,
agent invocation, AI-draft persistence, final view reconciliation, and the
catch path (toast, placeholder rollback) with the `finally` loading reset. -/
def handleSendMessageModel (ctx : SendCtx) (env : SendEnv) (v : View) :
    SendOutcome :=
  if sendGuardFails ctx then
    { view := v, result := [], toasts := 0, catchRan := false, persistCalls := 0 }
  else
    match ctx.chat with
    | none =>
      { view := v, result := [], toasts := 0, catchRan := false, persistCalls := 0 }
    | some chat =>
      let fileStep : Except Unit Unit :=
        if ctx.filesCount > 0 then env.fileReads.map (fun _ => ()) else .ok ()
      match fileStep with
      | .error _ =>
        { view := v, result := [], toasts := 1, catchRan := false, persistCalls := 0 }
      | .ok _ =>
        let tempU : Msg := { project_id := chat.project_id, chat_id := chat.chat_id,
                             sender := .user, text := ctx.text }
        let tempA : Msg := { project_id := chat.project_id, chat_id := chat.chat_id,
                             sender := .ai, text := [] }
        let v1 : View := { messages := v.messages ++ [(.tempUser, tempU), (.tempAi, tempA)],
                           isLoading := true }
        match env.addUserMessage with
        | .error _ =>
          { view := { messages := removeTemps v1.messages, isLoading := false },
            result := [], toasts := 1, catchRan := true, persistCalls := 1 }
        | .ok savedU =>
          let subst := fun (p : MsgId × Msg) =>
            if p.1 = MsgId.tempUser then (MsgId.persisted 0, savedU) else p
          let v2 : View := { v1 with messages := v1.messages.map subst }
          let agentMsgs := env.agent.2
          let drafts := agentMsgs.map (fun m => { m with project_id := chat.project_id })
          let pr := persistAiList env.addAiMessage drafts
          match pr.2 with
          | .error _ =>
            { view := { messages := removeTemps v2.messages, isLoading := false },
              result := [], toasts := 1, catchRan := true, persistCalls := 1 + pr.1 }
          | .ok savedAis =>
            let withIds := savedAis.enum.map
              (fun p => (MsgId.persisted (p.1 + 1), p.2))
            let kept := v2.messages.filter (fun p => p.1 != MsgId.tempAi)
            let v3 : View := { messages := kept ++ withIds, isLoading := false }
            { view := v3, result := agentMsgs, toasts := 0, catchRan := false,
              persistCalls := 1 + pr.1 }

/-! ### General lemmas -/

/-- Emission never shrinks: each loop iteration leaves `streamingBuffer` at
least as long as before (the true half of the stream invariant). -/
theorem feedChunk_buffer_len_mono (s : StreamState) (c : List Char) :
    s.streamingBuffer.length ≤ (feedChunk s c).1.streamingBuffer.length := by
  unfold feedChunk
  split
  · exact Nat.le_refl _
  · simp only []
    split
    · split
      · next hlt => exact Nat.le_of_lt hlt
      · exact Nat.le_refl _
    · simp

/-- Every event produced by the memory branch is a `saveMemory` call. -/
theorem memoryEvents_shape (ctx : AgentCtx) (meta : ParsedMetadata)
    (e : AgentEvent) (he : e ∈ memoryEvents ctx meta) :
    ∃ u l k v, e = AgentEvent.saveMemory u l k v := by
  unfold memoryEvents at he
  split at he
  · split at he
    · simp at he
    · simp only [List.mem_map] at he
      obtain ⟨m, _, hm⟩ := he
      exact ⟨ctx.user_id, m.layer, m.key, m.value, hm.symm⟩
  · simp at he

/-- The default metadata triggers neither the code nor the image branch and
creates no memory events. -/
theorem defaultMetadata_inert (ctx : AgentCtx) :
    hasCode defaultMetadata = false ∧ hasImage defaultMetadata = false
      ∧ memoryEvents ctx defaultMetadata = [] :=
  ⟨rfl, rfl, rfl⟩

/-! ### Claim C1 -/

/-- Claim C1 fails on the code (code bug).  When the sentinel
`'[--METADATA--]'` is split across a fragment boundary, the streaming loop
emits the whole fragment containing the partial sentinel (the `else` branch
sends `chunkText` wholesale), so the concatenated visible deltas are
`"Hi there! [--META"`, while feeding the same full response as a single
fragment yields `"Hi there! "`.  Fragmentation-invariance is violated and
partial sentinel text leaks to the UI. -/
theorem c1_fragmentation_invariance_fails :
    emittedText ["Hi there".data, "! [--META".data, "DATA--]{}[--METADATA--]".data]
        = "Hi there! [--META".data
    ∧ emittedText [("Hi there".data ++ "! [--META".data) ++ "DATA--]{}[--METADATA--]".data]
        = "Hi there! ".data
    ∧ emittedText ["Hi there".data, "! [--META".data, "DATA--]{}[--METADATA--]".data]
        ≠ emittedText [("Hi there".data ++ "! [--META".data) ++ "DATA--]{}[--METADATA--]".data] := by
  refine ⟨by decide, by decide, by decide⟩

/-! ### Claim C2 -/

/-- Claim C2 fails on the code (code bug).  On the straddled-sentinel run,
the sentinel is (eventually) detected at index 10 of the cumulative buffer,
but 17 characters have already been emitted to the UI: the emitted visible
text extends past the hidden-segment start, violating the stated boundary
invariant (the monotonicity half does hold, `feedChunk_buffer_len_mono`). -/
theorem c2_emitted_text_crosses_boundary :
    indexOfSub sentinel
        (["Hi there".data, "! [--META".data, "DATA--]{}[--METADATA--]".data].flatten)
        = some 10
    ∧ (runStream ["Hi there".data, "! [--META".data, "DATA--]{}[--METADATA--]".data]).1.streamingBuffer.length = 17
    ∧ (emittedText ["Hi there".data, "! [--META".data, "DATA--]{}[--METADATA--]".data]).length = 17
    ∧ 10 < 17 := by
  refine ⟨by decide, by decide, by decide, by decide⟩

/-! ### Claim C7 -/

/-- A parse function that always fails (models `JSON.parse` throwing). -/
def parseNone : List Char → Option ParsedMetadata := fun _ => none

/-- Claim C7 as stated is false: on the sentinel-free response `" hi"`,
finalization yields the TRIMMED text `"hi"` as the visible text, not the
entire text `" hi"` (the source applies `.trim()`). -/
theorem c7_counterexample :
    indexOfSub sentinel " hi".data = none
    ∧ finalizeResponse parseNone " hi".data = ("hi".data, defaultMetadata)
    ∧ (finalizeResponse parseNone " hi".data).1 ≠ " hi".data := by
  refine ⟨by decide, by decide, by decide⟩

/-- Claim C7 (amended): for every full response containing no occurrence of
the sentinel token, finalization yields the entire text, trimmed of
surrounding whitespace, as the visible text, and the all-null action
payload (no imagePrompt, code, language, or memoryToCreate). -/
theorem c7_no_sentinel_all_visible
    (parse : List Char → Option ParsedMetadata) (text : List Char)
    (h : indexOfSub sentinel text = none) :
    finalizeResponse parse text = (jsTrim text, defaultMetadata) := by
  unfold finalizeResponse extractMeta
  rw [h]

/-- Witness for `c7_no_sentinel_all_visible` at the concrete sentinel-free
response `"Hello"`. -/
theorem c7_witness :
    finalizeResponse parseNone "Hello".data = (jsTrim "Hello".data, defaultMetadata) :=
  c7_no_sentinel_all_visible parseNone "Hello".data (by decide)

/-- `attachRaw` changes only the audit field. -/
theorem attachRaw_fields (ctx : AgentCtx) (t : List Char) (m : Msg) :
    (attachRaw ctx t m).sender = m.sender ∧ (attachRaw ctx t m).code = m.code
      ∧ (attachRaw ctx t m).image_base64 = m.image_base64
      ∧ (attachRaw ctx t m).text = m.text := by
  unfold attachRaw
  split <;> exact ⟨rfl, rfl, rfl, rfl⟩

/-! ### Claim C6 -/

/-- Claim C6 as stated is false in one detail: on the response
`"Hi [--METADATA--]oops[--METADATA--]"` whose metadata block `"oops"` is
not valid JSON, the visible text is `"Hi"` — the text with the metadata
block removed AND trimmed — not the block-removed text `"Hi "`. -/
theorem c6_counterexample :
    extractMeta "Hi [--METADATA--]oops[--METADATA--]".data
        = some ("oops".data, "Hi ".data)
    ∧ parseNone (jsTrim "oops".data) = none
    ∧ finalizeResponse parseNone "Hi [--METADATA--]oops[--METADATA--]".data
        = ("Hi".data, defaultMetadata)
    ∧ (finalizeResponse parseNone "Hi [--METADATA--]oops[--METADATA--]".data).1
        ≠ "Hi ".data := by
  refine ⟨by decide, by decide, by decide, by decide⟩

/-- Claim C6 (amended): for every full response with a metadata block whose
inner text fails to parse, finalization does not throw and yields the
block-removed-and-trimmed visible text with the all-null payload, and the
whole turn performs no code, image, or memory action: it returns exactly
one AI message with no code and no image payload. -/
theorem c6_parse_failure_degrades
    (ctx : AgentCtx) (env : AgentEnv) (chunks : List (List Char))
    (inner stripped : List Char)
    (hs : env.streamResult = .ok chunks)
    (hex : extractMeta chunks.flatten = some (inner, stripped))
    (hne : inner ≠ [])
    (hpf : env.parseMeta (jsTrim inner) = none) :
    finalizeResponse env.parseMeta chunks.flatten = (jsTrim stripped, defaultMetadata)
    ∧ ∃ m, runAutonomousAgentModel ctx env = ([], [m])
        ∧ m.sender = Sender.ai ∧ m.code = none ∧ m.image_base64 = none := by
  have hfin : finalizeResponse env.parseMeta chunks.flatten
      = (jsTrim stripped, defaultMetadata) := by
    unfold finalizeResponse
    rw [hex]
    simp only [if_neg hne, hpf]
  refine ⟨hfin, ?_⟩
  unfold runAutonomousAgentModel agentBody
  rw [hs]
  simp only [runStream_fullText, hfin]
  unfold agentDispatch
  simp only [(defaultMetadata_inert ctx).1, (defaultMetadata_inert ctx).2.1,
    (defaultMetadata_inert ctx).2.2, Bool.false_eq_true, if_false]
  by_cases hv : jsTrim stripped = []
  · simp only [hv, ne_eq, not_true_eq_false, if_false]
    exact ⟨_, rfl, rfl, rfl, rfl⟩
  · simp only [ne_eq, hv, not_false_eq_true, if_true]
    refine ⟨_, rfl, ?_, ?_, ?_⟩
    · exact (attachRaw_fields ctx chunks.flatten _).1
    · exact (attachRaw_fields ctx chunks.flatten _).2.1
    · exact (attachRaw_fields ctx chunks.flatten _).2.2.1

/-- Environment fixture for the C6 witness: the stream delivers one
fragment containing an unparsable metadata block. -/
def envC6 : AgentEnv :=
  { streamResult := Except.ok ["Hi [--METADATA--]oops[--METADATA--]".data],
    parseMeta := parseNone,
    profileFetch := Except.error (TurnErr.thrown 0),
    settingsFetch := Except.error (TurnErr.thrown 0),
    genResult := fun _ _ => Except.error (TurnErr.thrown 0) }

/-- Context fixture shared by the witnesses. -/
def ctxA : AgentCtx :=
  { project_id := "p1".data, chat_id := "c1".data, user_id := "u1".data,
    roleAdmin := false, friendlyError := fun _ => "boom".data }

/-- Witness for `c6_parse_failure_degrades` at a concrete response with an
invalid metadata block. -/
theorem c6_witness :
    finalizeResponse envC6.parseMeta
        (["Hi [--METADATA--]oops[--METADATA--]".data].flatten)
        = (jsTrim "Hi ".data, defaultMetadata)
    ∧ ∃ m, runAutonomousAgentModel ctxA envC6 = ([], [m])
        ∧ m.sender = Sender.ai ∧ m.code = none ∧ m.image_base64 = none :=
  c6_parse_failure_degrades ctxA envC6 ["Hi [--METADATA--]oops[--METADATA--]".data]
    "oops".data "Hi ".data rfl (by decide) (by decide) rfl

/-! ### Claim C3 -/

/-- Claim C3: for every non-privileged user whose re-fetched balance is
strictly below the effective cost of the chosen image model, an
image-requesting turn issues no `generateImage` call and no
`deduct_credits` call, and its result is exactly one AI message whose text
is the shortfall notice. -/
theorem c3_shortfall_blocks_generation
    (ctx : AgentCtx) (env : AgentEnv) (chunks : List (List Char))
    (visible : List Char) (meta : ParsedMetadata)
    (prof : Profile) (settings : AppSettings)
    (hs : env.streamResult = Except.ok chunks)
    (hf : finalizeResponse env.parseMeta chunks.flatten = (visible, meta))
    (hnc : hasCode meta = false)
    (hi : hasImage meta = true)
    (hp : env.profileFetch = Except.ok prof)
    (hadmin : prof.membershipAdmin = false)
    (hst : env.settingsFetch = Except.ok settings)
    (hlt : prof.credits
      < effCost (settings.costOf (orDefaultName prof.preferred_image_model nanoBanana))) :
    (runAutonomousAgentModel ctx env).2 =
      [shortfallMsg ctx
        (effCost (settings.costOf (orDefaultName prof.preferred_image_model nanoBanana)))
        prof.credits]
    ∧ (∀ p m, AgentEvent.generateImage p m ∉ (runAutonomousAgentModel ctx env).1)
    ∧ (∀ u a, AgentEvent.deductCredits u a ∉ (runAutonomousAgentModel ctx env).1) := by
  have hbody : agentBody ctx env =
      ((memoryEvents ctx meta
          ++ [AgentEvent.uiImageStart visible, AgentEvent.fetchProfile])
          ++ [AgentEvent.fetchSettings],
       Except.ok [shortfallMsg ctx
         (effCost (settings.costOf (orDefaultName prof.preferred_image_model nanoBanana)))
         prof.credits]) := by
    unfold agentBody
    rw [hs]
    simp only [runStream_fullText, hf]
    unfold agentDispatch
    rw [hp]
    simp only [hnc, hi, hadmin, Bool.false_eq_true, if_false, if_true]
    rw [hst]
    simp only [if_pos hlt]
  have hrun : runAutonomousAgentModel ctx env =
      ((memoryEvents ctx meta
          ++ [AgentEvent.uiImageStart visible, AgentEvent.fetchProfile])
          ++ [AgentEvent.fetchSettings],
       [shortfallMsg ctx
         (effCost (settings.costOf (orDefaultName prof.preferred_image_model nanoBanana)))
         prof.credits]) := by
    unfold runAutonomousAgentModel
    rw [hbody]
  rw [hrun]
  refine ⟨rfl, ?_, ?_⟩
  · intro p m hm
    simp only [List.mem_append, List.mem_cons, List.mem_singleton] at hm
    rcases hm with (hm | hm) | hm
    · obtain ⟨u, l, k, v, he⟩ := memoryEvents_shape ctx meta _ hm
      simp at he
    · rcases hm with hm | hm | hm <;> simp_all
    · rcases hm with hm | hm <;> simp_all
  · intro u a hm
    simp only [List.mem_append, List.mem_cons, List.mem_singleton] at hm
    rcases hm with (hm | hm) | hm
    · obtain ⟨u2, l, k, v, he⟩ := memoryEvents_shape ctx meta _ hm
      simp at he
    · rcases hm with hm | hm | hm <;> simp_all
    · rcases hm with hm | hm <;> simp_all

/-- Parse fixture returning a payload with only an image prompt. -/
def parseImg : List Char → Option ParsedMetadata :=
  fun _ => some { imagePrompt := some "a cat".data }

/-- A non-privileged profile with zero balance. -/
def profPoor : Profile :=
  { membershipAdmin := false, preferred_image_model := none, credits := 0 }

/-- A cost table pricing every image model at 1 credit. -/
def costOne : List Char → Option Int := fun _ => some 1

/-- Settings fixture for the witnesses. -/
def settingsOne : AppSettings := { costOf := costOne }

/-- A `generateImage` backend that always rejects. -/
def genFail : List Char → List Char → Except TurnErr GenOut :=
  fun _ _ => Except.error (TurnErr.thrown 0)

/-- Environment fixture for the C3 witness: an image-requesting turn by a
zero-balance non-admin with every model costing 1 credit. -/
def envC3 : AgentEnv :=
  { streamResult := Except.ok ["Draw! [--METADATA--]x[--METADATA--]".data],
    parseMeta := parseImg,
    profileFetch := Except.ok profPoor,
    settingsFetch := Except.ok settingsOne,
    genResult := genFail }

/-- Witness for `c3_shortfall_blocks_generation` at balance 0 and cost 1,
together with the claim's concrete notice text. -/
theorem c3_witness :
    ((runAutonomousAgentModel ctxA envC3).2 =
      [shortfallMsg ctxA
        (effCost (settingsOne.costOf (orDefaultName profPoor.preferred_image_model nanoBanana)))
        profPoor.credits]
    ∧ (∀ p m, AgentEvent.generateImage p m ∉ (runAutonomousAgentModel ctxA envC3).1)
    ∧ (∀ u a, AgentEvent.deductCredits u a ∉ (runAutonomousAgentModel ctxA envC3).1))
    ∧ shortfallText 1 0
        = "Oops! You need 1 credits to generate an image, but you only have 0.".data :=
  ⟨c3_shortfall_blocks_generation ctxA envC3
      ["Draw! [--METADATA--]x[--METADATA--]".data] "Draw!".data
      { imagePrompt := some "a cat".data } profPoor settingsOne
      rfl (by decide) (by decide) (by decide) rfl rfl rfl (by decide),
    by decide⟩

/-- The collaborator-call trace of the agent is unchanged by the catch
wrapper. -/
theorem runModel_trace (ctx : AgentCtx) (env : AgentEnv) :
    (runAutonomousAgentModel ctx env).1 = (agentBody ctx env).1 := by
  unfold runAutonomousAgentModel
  rcases hb : agentBody ctx env with ⟨evs, r⟩
  cases r <;> rfl

/-! ### Claim C8 -/

/-- Claim C8: on every authorized (non-privileged, sufficient-balance)
image-generation turn, the `deduct_credits` call is issued strictly before
the `generateImage` call — the trace ends exactly with the deduction
followed by the generation — and this trace (hence the completed deduction)
is identical whether generation succeeds or fails: nothing reverses the
deduction. -/
theorem c8_deduction_precedes_generation
    (ctx : AgentCtx) (env : AgentEnv) (chunks : List (List Char))
    (visible : List Char) (meta : ParsedMetadata)
    (prof : Profile) (settings : AppSettings) (prompt : List Char)
    (hs : env.streamResult = Except.ok chunks)
    (hf : finalizeResponse env.parseMeta chunks.flatten = (visible, meta))
    (hnc : hasCode meta = false)
    (hi : hasImage meta = true)
    (hprompt : meta.imagePrompt = some prompt)
    (hp : env.profileFetch = Except.ok prof)
    (hadmin : prof.membershipAdmin = false)
    (hst : env.settingsFetch = Except.ok settings)
    (hge : ¬ prof.credits
      < effCost (settings.costOf (orDefaultName prof.preferred_image_model nanoBanana))) :
    (runAutonomousAgentModel ctx env).1 =
      ((((memoryEvents ctx meta
          ++ [AgentEvent.uiImageStart visible, AgentEvent.fetchProfile])
          ++ [AgentEvent.fetchSettings])
          ++ [AgentEvent.deductCredits ctx.user_id
                (effCost (settings.costOf (orDefaultName prof.preferred_image_model nanoBanana)))])
          ++ [AgentEvent.generateImage prompt
                (orDefaultName prof.preferred_image_model nanoBanana)])
    ∧ (∀ e, env.genResult prompt (orDefaultName prof.preferred_image_model nanoBanana)
          = Except.error e →
        AgentEvent.deductCredits ctx.user_id
            (effCost (settings.costOf (orDefaultName prof.preferred_image_model nanoBanana)))
          ∈ (runAutonomousAgentModel ctx env).1) := by
  have htr : (agentBody ctx env).1 =
      ((((memoryEvents ctx meta
          ++ [AgentEvent.uiImageStart visible, AgentEvent.fetchProfile])
          ++ [AgentEvent.fetchSettings])
          ++ [AgentEvent.deductCredits ctx.user_id
                (effCost (settings.costOf (orDefaultName prof.preferred_image_model nanoBanana)))])
          ++ [AgentEvent.generateImage prompt
                (orDefaultName prof.preferred_image_model nanoBanana)]) := by
    unfold agentBody
    rw [hs]
    simp only [runStream_fullText, hf]
    unfold agentDispatch
    rw [hp]
    simp only [hnc, hi, hadmin, Bool.false_eq_true, if_false, if_true]
    rw [hst]
    simp only [if_neg hge, hprompt, Option.getD_some]
    unfold runGeneration
    cases hg : env.genResult prompt (orDefaultName prof.preferred_image_model nanoBanana) <;>
      simp [hg]
  rw [runModel_trace, htr]
  refine ⟨rfl, ?_⟩
  intro e _
  simp

/-- A non-privileged profile with a balance of 5 credits. -/
def profRich : Profile :=
  { membershipAdmin := false, preferred_image_model := none, credits := 5 }

/-- Environment fixture for the C8 witness: an authorized paid image turn
whose generation call subsequently fails. -/
def envC8 : AgentEnv :=
  { streamResult := Except.ok ["Draw! [--METADATA--]x[--METADATA--]".data],
    parseMeta := parseImg,
    profileFetch := Except.ok profRich,
    settingsFetch := Except.ok settingsOne,
    genResult := genFail }

/-- Witness for `c8_deduction_precedes_generation`: with balance 5 and cost
1 the trace ends with the deduction followed by the generation call, and
the deduction stays in the trace although generation fails. -/
theorem c8_witness :
    (runAutonomousAgentModel ctxA envC8).1 =
      ((((memoryEvents ctxA { imagePrompt := some "a cat".data }
          ++ [AgentEvent.uiImageStart "Draw!".data, AgentEvent.fetchProfile])
          ++ [AgentEvent.fetchSettings])
          ++ [AgentEvent.deductCredits ctxA.user_id
                (effCost (settingsOne.costOf (orDefaultName profRich.preferred_image_model nanoBanana)))])
          ++ [AgentEvent.generateImage "a cat".data
                (orDefaultName profRich.preferred_image_model nanoBanana)])
    ∧ (∀ e, envC8.genResult "a cat".data (orDefaultName profRich.preferred_image_model nanoBanana)
          = Except.error e →
        AgentEvent.deductCredits ctxA.user_id
            (effCost (settingsOne.costOf (orDefaultName profRich.preferred_image_model nanoBanana)))
          ∈ (runAutonomousAgentModel ctxA envC8).1) :=
  c8_deduction_precedes_generation ctxA envC8
    ["Draw! [--METADATA--]x[--METADATA--]".data] "Draw!".data
    { imagePrompt := some "a cat".data } profRich settingsOne "a cat".data
    rfl (by decide) (by decide) (by decide) (by decide) rfl rfl rfl (by decide)

/-- The catch wrapper turns any thrown body error into the single fallback
message. -/
theorem agentCatch_of_error (ctx : AgentCtx) (env : AgentEnv) (e : TurnErr)
    (h : (agentBody ctx env).2 = Except.error e) :
    (runAutonomousAgentModel ctx env).2 = [errorMsg ctx e] := by
  unfold runAutonomousAgentModel
  rcases hb : agentBody ctx env with ⟨evs, r⟩
  rw [hb] at h
  cases r with
  | ok msgs => simp at h
  | error e2 =>
    have he : e2 = e := by simpa using h
    rw [he]

/-! ### Claim C9 -/

/-- Claim C9: `runAutonomousAgent` is total over failures — its model
returns a plain message list for every input, and whenever the `try` body
throws any error, the function returns normally with exactly one AI message
whose text is `"An error occurred: "` followed by the user-friendly error
text. -/
theorem c9_agent_never_rejects (ctx : AgentCtx) (env : AgentEnv) (e : TurnErr)
    (h : (agentBody ctx env).2 = Except.error e) :
    (runAutonomousAgentModel ctx env).2 = [errorMsg ctx e]
    ∧ (errorMsg ctx e).sender = Sender.ai
    ∧ (errorMsg ctx e).text = "An error occurred: ".data ++ ctx.friendlyError e :=
  ⟨agentCatch_of_error ctx env e h, rfl, rfl⟩

/-- Environment fixture for the C9 witness: the model stream itself
rejects. -/
def envC9 : AgentEnv :=
  { streamResult := Except.error (TurnErr.thrown 7),
    parseMeta := parseNone,
    profileFetch := Except.ok profPoor,
    settingsFetch := Except.ok settingsOne,
    genResult := genFail }

/-- Witness for `c9_agent_never_rejects` at a stream failure. -/
theorem c9_witness :
    (runAutonomousAgentModel ctxA envC9).2 = [errorMsg ctxA (TurnErr.thrown 7)]
    ∧ (errorMsg ctxA (TurnErr.thrown 7)).sender = Sender.ai
    ∧ (errorMsg ctxA (TurnErr.thrown 7)).text
        = "An error occurred: ".data ++ ctxA.friendlyError (TurnErr.thrown 7) :=
  c9_agent_never_rejects ctxA envC9 (TurnErr.thrown 7) rfl

/-! ### Claim C10 -/

/-- Claim C10: whenever the guard of `handleSendMessage` fires (empty or
whitespace-only text with no files, or a missing supabase/user/chat/API-key
dependency), the call returns `{ messages: [] }` immediately and leaves all
view state untouched: no placeholders injected, no persistence call made,
no toast, and the loading flag unchanged. -/
theorem c10_guard_no_effects (ctx : SendCtx) (env : SendEnv) (v : View)
    (h : sendGuardFails ctx = true) :
    handleSendMessageModel ctx env v =
      { view := v, result := [], toasts := 0, catchRan := false,
        persistCalls := 0 } := by
  unfold handleSendMessageModel
  simp [h]

/-- The active chat fixture. -/
def chatA : ChatInfo := { chat_id := "c1".data, project_id := "p1".data }

/-- A persistence backend that accepts every draft unchanged. -/
def okPersist : Msg → Except Unit Msg := fun m => Except.ok m

/-- The persisted user message fixture. -/
def savedUA : Msg :=
  { project_id := "p1".data, chat_id := "c1".data, sender := Sender.user,
    text := "hi".data }

/-- A `handleSendMessage` call whose text is whitespace-only and which
attaches no files. -/
def sctxGuard : SendCtx :=
  { text := "  ".data, filesCount := 0, hasSupabase := true, hasUser := true,
    chat := some chatA, hasApiKey := true }

/-- A benign send environment (everything succeeds, agent returns nothing). -/
def senvA : SendEnv :=
  { fileReads := Except.ok [], addUserMessage := Except.ok savedUA,
    agent := ([], []), addAiMessage := okPersist }

/-- An empty conversation view. -/
def viewA : View := { messages := [], isLoading := false }

/-- Witness for `c10_guard_no_effects` at a whitespace-only submission. -/
theorem c10_witness :
    handleSendMessageModel sctxGuard senvA viewA =
      { view := viewA, result := [], toasts := 0, catchRan := false,
        persistCalls := 0 } :=
  c10_guard_no_effects sctxGuard senvA viewA (by decide)

/-! ### Claim C4 -/

/-- Agent environment whose stream completes with no text at all, so the
resolved response has no visible text and no action. -/
def envC4 : AgentEnv :=
  { streamResult := Except.ok [], parseMeta := parseNone,
    profileFetch := Except.ok profPoor, settingsFetch := Except.ok settingsOne,
    genResult := genFail }

/-- A normal (guard-passing) `handleSendMessage` call context. -/
def sctxC4 : SendCtx :=
  { text := "hi".data, filesCount := 0, hasSupabase := true, hasUser := true,
    chat := some chatA, hasApiKey := true }

/-- Send environment wired to the empty-response agent run, with all
persistence succeeding. -/
def senvC4 : SendEnv :=
  { fileReads := Except.ok [], addUserMessage := Except.ok savedUA,
    agent := runAutonomousAgentModel ctxA envC4, addAiMessage := okPersist }

/-- Claim C4 as stated is false: on a turn whose resolved response is empty
(no visible text, no action), `runAutonomousAgent` throws internally but
catches its own error, so `handleSendMessage`'s catch path does NOT run (no
toast, placeholders are replaced, not removed) and the turn completes with
one persisted AI message carrying the generic failure notice. -/
theorem c4_counterexample :
    (agentBody ctxA envC4).2 = Except.error TurnErr.emptyResponse
    ∧ (runAutonomousAgentModel ctxA envC4).2 = [errorMsg ctxA TurnErr.emptyResponse]
    ∧ (handleSendMessageModel sctxC4 senvC4 viewA).catchRan = false
    ∧ (handleSendMessageModel sctxC4 senvC4 viewA).toasts = 0
    ∧ (handleSendMessageModel sctxC4 senvC4 viewA).result
        = [errorMsg ctxA TurnErr.emptyResponse]
    ∧ (handleSendMessageModel sctxC4 senvC4 viewA).view.messages
        = [(MsgId.persisted 0, savedUA),
           (MsgId.persisted 1, errorMsg ctxA TurnErr.emptyResponse)] := by
  refine ⟨rfl, rfl, rfl, rfl, rfl, rfl⟩

/-- Claim C4 (amended): a turn whose resolved response has no visible text
and no action throws `"The AI returned an empty response."` internally, but
the error is caught inside `runAutonomousAgent`, which returns normally
with exactly one AI message carrying the generic failure notice; the
orchestrator's catch path does not run (no toast, no placeholder rollback)
and that notice is persisted as the turn's AI message. -/
theorem c4_empty_response_caught_internally
    (actx : AgentCtx) (aenv : AgentEnv) (chunks : List (List Char))
    (visible : List Char) (meta : ParsedMetadata)
    (hs : aenv.streamResult = Except.ok chunks)
    (hf : finalizeResponse aenv.parseMeta chunks.flatten = (visible, meta))
    (hnc : hasCode meta = false)
    (hni : hasImage meta = false)
    (hv : visible = [])
    (sctx : SendCtx) (senv : SendEnv) (v : View) (chat : ChatInfo) (savedU : Msg)
    (hg : sendGuardFails sctx = false)
    (hchat : sctx.chat = some chat)
    (hfiles : sctx.filesCount = 0)
    (hau : senv.addUserMessage = Except.ok savedU)
    (hagent : senv.agent = runAutonomousAgentModel actx aenv)
    (hai : senv.addAiMessage = okPersist) :
    (agentBody actx aenv).2 = Except.error TurnErr.emptyResponse
    ∧ (runAutonomousAgentModel actx aenv).2 = [errorMsg actx TurnErr.emptyResponse]
    ∧ (handleSendMessageModel sctx senv v).catchRan = false
    ∧ (handleSendMessageModel sctx senv v).toasts = 0
    ∧ (handleSendMessageModel sctx senv v).result
        = [errorMsg actx TurnErr.emptyResponse] := by
  have hbody : (agentBody actx aenv).2 = Except.error TurnErr.emptyResponse := by
    unfold agentBody
    rw [hs]
    simp only [runStream_fullText, hf]
    unfold agentDispatch
    simp [hnc, hni, hv]
  have hrun : (runAutonomousAgentModel actx aenv).2
      = [errorMsg actx TurnErr.emptyResponse] :=
    agentCatch_of_error actx aenv TurnErr.emptyResponse hbody
  have hsend : (handleSendMessageModel sctx senv v).catchRan = false
      ∧ (handleSendMessageModel sctx senv v).toasts = 0
      ∧ (handleSendMessageModel sctx senv v).result
          = [errorMsg actx TurnErr.emptyResponse] := by
    unfold handleSendMessageModel
    rw [hchat]
    simp only [hg, Bool.false_eq_true, if_false, hfiles, gt_iff_lt,
      Nat.lt_irrefl, hau, hagent, hrun, hai]
    simp [persistAiList, okPersist, Except.map]
  exact ⟨hbody, hrun, hsend.1, hsend.2.1, hsend.2.2⟩

/-- Witness for `c4_empty_response_caught_internally` at the concrete
empty-response fixtures. -/
theorem c4_witness :
    (agentBody ctxA envC4).2 = Except.error TurnErr.emptyResponse
    ∧ (runAutonomousAgentModel ctxA envC4).2 = [errorMsg ctxA TurnErr.emptyResponse]
    ∧ (handleSendMessageModel sctxC4 senvC4 viewA).catchRan = false
    ∧ (handleSendMessageModel sctxC4 senvC4 viewA).toasts = 0
    ∧ (handleSendMessageModel sctxC4 senvC4 viewA).result
        = [errorMsg ctxA TurnErr.emptyResponse] :=
  c4_empty_response_caught_internally ctxA envC4 [] [] defaultMetadata
    rfl (by decide) rfl rfl rfl
    sctxC4 senvC4 viewA chatA savedUA
    (by decide) rfl rfl rfl rfl rfl

/-! ### Claim C5 -/

/-- A payload carrying only an image prompt. -/
def metaImg : ParsedMetadata := { imagePrompt := some "a cat".data }

/-- Claim C5 as stated is false in the image case: with a non-empty image
prompt but an insufficient balance (balance 0, cost 1), the single draft is
the shortfall notice — it carries no image payload, no status, and not the
visible text. -/
theorem c5_counterexample :
    (agentDispatch ctxA envC3 "full".data "Here".data metaImg).2
      = Except.ok [shortfallMsg ctxA 1 0]
    ∧ (shortfallMsg ctxA 1 0).image_base64 = none
    ∧ (shortfallMsg ctxA 1 0).imageStatus = none
    ∧ (shortfallMsg ctxA 1 0).text ≠ "Here".data := by
  refine ⟨rfl, rfl, rfl, by decide⟩

/-- Claim C5 (amended): dispatch selects at most one primary draft by
strict priority — a non-empty code body yields one code draft (no image
call is made even when an image prompt is also present); else a non-empty
image prompt yields one image draft when the credit gate authorizes
(privileged, or balance at least cost) and generation succeeds, and the
shortfall notice alone when the balance is insufficient; else a non-empty
visible text yields one plain-text draft; an empty payload with empty
visible text yields no draft and raises the empty-response error. -/
theorem c5_dispatch_priority
    (ctx : AgentCtx) (env : AgentEnv) (fullText visible : List Char)
    (meta : ParsedMetadata) (prof : Profile) (settings : AppSettings)
    (g : GenOut) (prompt : List Char) :
    (hasCode meta = true →
      agentDispatch ctx env fullText visible meta =
        (memoryEvents ctx meta,
         Except.ok [attachRaw ctx fullText (codeMsg ctx visible meta)])
      ∧ ∀ p m, AgentEvent.generateImage p m
          ∉ (agentDispatch ctx env fullText visible meta).1)
    ∧ (hasCode meta = false → hasImage meta = true →
       meta.imagePrompt = some prompt → env.profileFetch = Except.ok prof →
       (prof.membershipAdmin = false → env.settingsFetch = Except.ok settings →
         prof.credits < effCost (settings.costOf
           (orDefaultName prof.preferred_image_model nanoBanana)) →
         (agentDispatch ctx env fullText visible meta).2 =
           Except.ok [shortfallMsg ctx
             (effCost (settings.costOf (orDefaultName prof.preferred_image_model nanoBanana)))
             prof.credits])
       ∧ (prof.membershipAdmin = false → env.settingsFetch = Except.ok settings →
          ¬ prof.credits < effCost (settings.costOf
            (orDefaultName prof.preferred_image_model nanoBanana)) →
          env.genResult prompt (orDefaultName prof.preferred_image_model nanoBanana)
            = Except.ok g →
          (agentDispatch ctx env fullText visible meta).2 =
            Except.ok [attachRaw ctx fullText (imageMsg ctx visible g)])
       ∧ (prof.membershipAdmin = true →
          env.genResult prompt (orDefaultName prof.preferred_image_model nanoBanana)
            = Except.ok g →
          (agentDispatch ctx env fullText visible meta).2 =
            Except.ok [attachRaw ctx fullText (imageMsg ctx visible g)]))
    ∧ (hasCode meta = false → hasImage meta = false → visible ≠ [] →
       agentDispatch ctx env fullText visible meta =
         (memoryEvents ctx meta,
          Except.ok [attachRaw ctx fullText (plainMsg ctx visible)]))
    ∧ (hasCode meta = false → hasImage meta = false → visible = [] →
       (agentDispatch ctx env fullText visible meta).2
         = Except.error TurnErr.emptyResponse) := by
  refine ⟨?_, ?_, ?_, ?_⟩
  · intro hc
    have hd : agentDispatch ctx env fullText visible meta =
        (memoryEvents ctx meta,
         Except.ok [attachRaw ctx fullText (codeMsg ctx visible meta)]) := by
      unfold agentDispatch
      simp only [hc, if_true]
    refine ⟨hd, ?_⟩
    intro p m hm
    rw [hd] at hm
    obtain ⟨u, l, k, v, he⟩ := memoryEvents_shape ctx meta _ hm
    simp at he
  · intro hnc hi hprompt hp
    refine ⟨?_, ?_, ?_⟩
    · intro hadmin hst hlt
      unfold agentDispatch
      rw [hp]
      simp only [hnc, hi, hadmin, Bool.false_eq_true, if_false, if_true]
      rw [hst]
      simp only [if_pos hlt]
    · intro hadmin hst hge hg
      unfold agentDispatch
      rw [hp]
      simp only [hnc, hi, hadmin, Bool.false_eq_true, if_false, if_true]
      rw [hst]
      simp only [if_neg hge, hprompt, Option.getD_some]
      unfold runGeneration
      rw [hg]
    · intro hadmin hg
      unfold agentDispatch
      rw [hp]
      simp only [hnc, hi, hadmin, Bool.false_eq_true, if_false, if_true, hprompt,
        Option.getD_some]
      unfold runGeneration
      rw [hg]
  · intro hnc hni hv
    unfold agentDispatch
    simp only [hnc, hni, Bool.false_eq_true, if_false, ne_eq, hv,
      not_false_eq_true, if_true]
  · intro hnc hni hv
    unfold agentDispatch
    simp only [hnc, hni, Bool.false_eq_true, if_false, ne_eq, hv,
      not_true_eq_false]

/-- A payload that carries BOTH a code body and an image prompt: code must
win. -/
def metaBoth : ParsedMetadata :=
  { imagePrompt := some "a cat".data, code := some " x = 1 ".data,
    language := some "python".data }

/-- A successful generation outcome fixture. -/
def genOutA : GenOut := { imageBase64 := "IMG".data, fallbackOccurred := false }

/-- Witness for `c5_dispatch_priority`: with both a code body and an image
prompt present, dispatch yields exactly the code draft and no
`generateImage` call. -/
theorem c5_witness :
    agentDispatch ctxA envC3 "full".data "Here".data metaBoth =
      (memoryEvents ctxA metaBoth,
       Except.ok [attachRaw ctxA "full".data (codeMsg ctxA "Here".data metaBoth)])
    ∧ ∀ p m, AgentEvent.generateImage p m
        ∉ (agentDispatch ctxA envC3 "full".data "Here".data metaBoth).1 :=
  (c5_dispatch_priority ctxA envC3 "full".data "Here".data metaBoth
    profPoor settingsOne genOutA "a cat".data).1 (by decide)

end BubbleAi
